import Mathlib

/-!
Shallow embedding of the symptom-timeline pattern-detection and risk engine of the
AI-Doctor-Assistant repository (backend/app/services/timeline_analysis_service.py and the
narrative boundary in backend/app/services/specialized_medical_service.py).

Modelling conventions:
* `datetime` timestamps are rationals measured in hours, so a Python expression
  `(b - a).total_seconds() / 3600` becomes `b.timestamp - a.timestamp`.
* Python ints are `Int`/`Nat`; float arithmetic is idealized as exact rational arithmetic.
* `math`-library square roots (inside `statistics.stdev` / `statistics.correlation`) are kept
  abstract: the functions that need them take an explicit `sqrtA : ℚ → ℚ` argument standing
  for the float square-root routine.  No theorem below depends on its values.
* `datetime.utcnow()` is modelled as an explicit `now : ℚ` argument of the orchestrator.
* The external LLM narrative call (`_call_specialized_model` + `_parse_timeline_response`)
  is the out-of-scope collaborator; its outcome is passed in as `Except String AiParsed`
  (error message on failure, parsed payload on success).
-/

/-- Python's `str.lower()` on the character list of a string (ASCII case mapping,
which is all the fixed keyword tables exercise). -/
def pyLower (s : String) : String := ⟨s.data.map Char.toLower⟩

/-- Python's substring test `needle in hay` (contiguous occurrence). -/
def charsContain (needle : List Char) : List Char → Bool
  | [] => needle.isEmpty
  | c :: rest => needle.isPrefixOf (c :: rest) || charsContain needle rest

/-- `needle in hay` on strings. -/
def strContains (hay needle : String) : Bool := charsContain needle.data hay.data

/-- `SymptomTimelineEntry` dataclass of specialized_medical_service.py. -/
structure SymptomTimelineEntry where
  timestamp : ℚ
  symptom : String
  severity : Option Int := none
  location : Option String := none
  quality : Option String := none
  duration : Option String := none
  notes : Option String := none
  deriving Repr, DecidableEq, Inhabited

/-- `self.emergency_keywords` of `SymptomTimelineAnalyzer.__init__`. -/
def emergencyKeywords : List String :=
  ["chest pain", "difficulty breathing", "shortness of breath",
   "severe headache", "loss of consciousness", "seizure",
   "severe bleeding", "severe abdominal pain", "stroke symptoms",
   "heart palpitations", "severe allergic reaction", "overdose",
   "suicidal thoughts", "severe dizziness", "fainting"]

/-- `self.symptom_categories` of `SymptomTimelineAnalyzer.__init__`. -/
def symptomCategories : List (String × List String) :=
  [("cardiovascular", ["chest pain", "palpitations", "shortness of breath", "swelling", "fatigue"]),
   ("neurological", ["headache", "dizziness", "confusion", "memory loss", "seizure", "weakness"]),
   ("gastrointestinal", ["nausea", "vomiting", "diarrhea", "abdominal pain", "constipation"]),
   ("respiratory", ["cough", "shortness of breath", "wheezing", "chest tightness"]),
   ("musculoskeletal", ["joint pain", "muscle pain", "stiffness", "swelling"]),
   ("psychological", ["anxiety", "depression", "mood changes", "sleep problems"])]

/-- `any(keyword in s.symptom.lower() for keyword in self.emergency_keywords)`. -/
def entryMatchesEmergency (e : SymptomTimelineEntry) : Bool :=
  emergencyKeywords.any fun keyword => strContains (pyLower e.symptom) keyword

/-- Python truthiness of an optional severity (`if e.severity:` — `None` and `0` are falsy). -/
def sevTruthy : Option Int → Bool
  | none => false
  | some s => s != 0

/-- The 1-hour (resp. `w`-hour) forward scan of the detectors: starting at index `i`,
take the entry at `i` and then later entries while the time difference stays `≤ w`
(the loops `break` at the first entry beyond the window). -/
def windowFrom (tl : List SymptomTimelineEntry) (i : Nat) (w : ℚ) : List SymptomTimelineEntry :=
  match tl.drop i with
  | [] => []
  | e :: rest => e :: rest.takeWhile fun f => decide (f.timestamp - e.timestamp ≤ w)

/-- The candidate group of `_detect_rapid_onset` for index `i` (1-hour window). -/
def rapidOnsetGroup (tl : List SymptomTimelineEntry) (i : Nat) : List SymptomTimelineEntry :=
  windowFrom tl i 1

/-- Output dict of `_detect_rapid_onset` for one group. -/
structure RapidOnsetPattern where
  type_ : String
  symptom_count : Nat
  timeframe_minutes : Int
  symptoms : List String
  average_severity : Option ℚ
  emergency_symptoms : List String
  clinical_significance : String
  urgency_level : String
  deriving Repr, DecidableEq

/-- `_assess_rapid_onset_significance`. -/
def assessRapidOnsetSignificance (groupLen : Nat) (emergencySymptoms : List String) : String :=
  if emergencySymptoms ≠ [] then
    "High clinical significance - emergency evaluation required"
  else if groupLen ≥ 5 then
    "Moderate-high significance - urgent evaluation recommended"
  else
    "Moderate significance - medical evaluation advised"

/-- Python `int()` truncation toward zero on a rational. -/
def pyInt (x : ℚ) : Int := if 0 ≤ x then ⌊x⌋ else ⌈x⌉

/-- The pattern dict built by `_detect_rapid_onset` from a nonempty group `e :: rest`. -/
def mkRapidOnsetPattern (e : SymptomTimelineEntry) (rest : List SymptomTimelineEntry) :
    RapidOnsetPattern :=
  let group := e :: rest
  let severityScores := group.filterMap (·.severity)
  let avgSeverity : Option ℚ :=
    if severityScores = [] then none
    else some (((severityScores.map (Int.cast : Int → ℚ)).sum) / severityScores.length)
  let emergencySymptoms := (group.filter entryMatchesEmergency).map (·.symptom)
  { type_ := "rapid_onset"
    symptom_count := group.length
    timeframe_minutes :=
      pyInt (((group.getLast (List.cons_ne_nil e rest)).timestamp - e.timestamp) * 60)
    symptoms := group.map (·.symptom)
    average_severity := avgSeverity
    emergency_symptoms := emergencySymptoms
    clinical_significance := assessRapidOnsetSignificance group.length emergencySymptoms
    urgency_level :=
      -- `"high" if emergency_symptoms or (avg_severity and avg_severity >= 7) else "moderate"`;
      -- `avg_severity and ...` uses Python truthiness, so an average of exactly 0 is falsy.
      if emergencySymptoms ≠ [] ∨
         (match avgSeverity with | none => false | some a => decide (a ≠ 0 ∧ 7 ≤ a)) = true
      then "high"
      else "moderate" }

/-- The contribution of index `i` to the result list of `_detect_rapid_onset`:
one pattern when the 1-hour group has at least 3 entries, nothing otherwise. -/
def ropAt (tl : List SymptomTimelineEntry) (i : Nat) : List RapidOnsetPattern :=
  match windowFrom tl i 1 with
  | [] => []
  | e :: rest => if (e :: rest).length ≥ 3 then [mkRapidOnsetPattern e rest] else []

/-- `_detect_rapid_onset`. -/
def detectRapidOnset (tl : List SymptomTimelineEntry) : List RapidOnsetPattern :=
  (List.range tl.length).flatMap (ropAt tl)

/-- One element of the `emergency_patterns` list of `_detect_emergency_patterns`
(a dict with urgency "high" for rapid escalations, "critical" for the keyword cluster). -/
inductive EmergencyIndicator where
  | rapidEscalation (severity_increase : Int) (timeframe_hours : ℚ) (symptoms : List String)
  | emergencySymptomCluster (emergency_symptom_count : Nat) (emergency_symptoms : List String)
  deriving Repr, DecidableEq

/-- The `"urgency"` field of an emergency pattern dict. -/
def EmergencyIndicator.urgency : EmergencyIndicator → String
  | .rapidEscalation .. => "high"
  | .emergencySymptomCluster .. => "critical"

/-- The `"recommendation"` field of an emergency pattern dict. -/
def EmergencyIndicator.recommendation : EmergencyIndicator → String
  | .rapidEscalation .. => "Immediate medical evaluation required"
  | .emergencySymptomCluster .. => "Emergency medical attention required immediately"

/-- Pattern 1 of `_detect_emergency_patterns`: adjacent severity-bearing pairs
(Python truthiness: severity `0` or `None` skips the pair) with a rise of ≥ 4 points
within ≤ 2 hours. -/
def detectRapidEscalations (tl : List SymptomTimelineEntry) : List EmergencyIndicator :=
  (tl.zip tl.tail).flatMap fun p =>
    if sevTruthy p.1.severity ∧ sevTruthy p.2.severity then
      let inc := (p.2.severity.getD 0) - (p.1.severity.getD 0)
      let dt := p.2.timestamp - p.1.timestamp
      if inc ≥ 4 ∧ dt ≤ 2 then [.rapidEscalation inc dt [p.1.symptom, p.2.symptom]] else []
    else []

/-- `emergency_symptom_count` of Pattern 2 of `_detect_emergency_patterns`. -/
def emergencyCount (tl : List SymptomTimelineEntry) : Nat :=
  (tl.filter entryMatchesEmergency).length

/-- `emergency_symptoms` of Pattern 2 of `_detect_emergency_patterns`. -/
def emergencyMatches (tl : List SymptomTimelineEntry) : List String :=
  (tl.filter entryMatchesEmergency).map (·.symptom)

/-- The `emergency_symptom_cluster` dict Pattern 2 builds when it fires. -/
def emergencyClusterIndicator (tl : List SymptomTimelineEntry) : EmergencyIndicator :=
  .emergencySymptomCluster (emergencyCount tl) (emergencyMatches tl)

/-- `_detect_emergency_patterns`: escalation pairs first, then (when at least two entries
match the keyword set) the single keyword-cluster pattern. -/
def detectEmergencyPatterns (tl : List SymptomTimelineEntry) : List EmergencyIndicator :=
  detectRapidEscalations tl ++
    (if emergencyCount tl ≥ 2 then [emergencyClusterIndicator tl] else [])

/-- Append a value to a key's bucket in an association list, preserving Python's
dict insertion-order semantics (new keys go to the back). -/
def insertGroup {α : Type} (k : String) (v : α) :
    List (String × List α) → List (String × List α)
  | [] => [(k, [v])]
  | (k', vs) :: rest =>
      if k' = k then (k', vs ++ [v]) :: rest else (k', vs) :: insertGroup k v rest

/-- Stable ascending sort by timestamp, the `sorted(timeline, key=lambda x: x.timestamp)`
and in-group `entries.sort(key=lambda x: x.timestamp)` calls. -/
def sortByTimestamp (tl : List SymptomTimelineEntry) : List SymptomTimelineEntry :=
  tl.mergeSort fun a b => decide (a.timestamp ≤ b.timestamp)

/-- `SeverityTrend` dataclass of timeline_analysis_service.py.  The correlation field is
whatever the float `statistics.correlation` produced, so it is parameterized by `sqrtA`
at the construction site. -/
structure SeverityTrend where
  symptom : String
  trend_direction : String
  slope : ℚ
  correlation_coefficient : ℚ
  significance : String
  deriving Repr, DecidableEq

/-- The least-squares denominator `n * sum_x2 - sum_x * sum_x` of `_analyze_severity_trends`. -/
def lsDenom (xs : List ℚ) : ℚ :=
  (xs.length : ℚ) * (xs.map fun x => x * x).sum - xs.sum * xs.sum

/-- `slope = (n*sum_xy - sum_x*sum_y) / (n*sum_x2 - sum_x*sum_x) if ... != 0 else 0`. -/
def lsSlope (xs ys : List ℚ) : ℚ :=
  let n : ℚ := xs.length
  let num := n * (List.zipWith (· * ·) xs ys).sum - xs.sum * ys.sum
  if lsDenom xs ≠ 0 then num / lsDenom xs else 0

/-- Whether `statistics.correlation(xs, ys)` raises (fewer than two points, or one of the
inputs has zero variance); the caller's `try/except` then yields the sentinel 0. -/
def corrDegenerate (xs ys : List ℚ) : Bool :=
  decide (xs.length ≤ 1) || decide (lsDenom xs = 0) || decide (lsDenom ys = 0)

/-- `statistics.correlation(timestamps, severities) if len(timestamps) > 1 else 0`, wrapped
in `try/except: correlation = 0`.  In the non-degenerate case the float library computes
`sxy / sqrt(sxx * syy)`; the square root is the abstract `sqrtA`. -/
def correlationOr0 (sqrtA : ℚ → ℚ) (xs ys : List ℚ) : ℚ :=
  if corrDegenerate xs ys then 0
  else
    let n : ℚ := xs.length
    let sxy := n * (List.zipWith (· * ·) xs ys).sum - xs.sum * ys.sum
    sxy / sqrtA (lsDenom xs * lsDenom ys)

/-- `_assess_severity_trend_significance`. -/
def assessSeverityTrendSignificance (direction : String) (slope : ℚ)
    (severities : List Int) : String :=
  let maxSeverity := (severities.max?).getD 0
  if direction = "increasing" ∧ maxSeverity ≥ 7 then
    "High significance - worsening severe symptom requires immediate attention"
  else if direction = "increasing" ∧ |slope| > 1 then
    "Moderate-high significance - rapid worsening trend"
  else if direction = "decreasing" then
    "Positive trend - symptom improving"
  else
    "Monitor for changes"

/-- The body of the per-symptom loop of `_analyze_severity_trends` for one group
(already known to have ≥ 3 entries, each carrying a severity). -/
def mkSeverityTrend (sqrtA : ℚ → ℚ) (symptom : String)
    (entries : List SymptomTimelineEntry) : SeverityTrend :=
  let sorted := sortByTimestamp entries
  let t0 := (sorted.headD default).timestamp
  let timestamps := sorted.map fun e => e.timestamp - t0
  let severities := sorted.map fun e => e.severity.getD 0  -- every group entry has a severity
  let severitiesQ := severities.map (Int.cast : Int → ℚ)
  let slope := lsSlope timestamps severitiesQ
  let direction :=
    if |slope| < 1/10 then "stable" else if slope > 0 then "increasing" else "decreasing"
  { symptom := symptom
    trend_direction := direction
    slope := slope
    correlation_coefficient := correlationOr0 sqrtA timestamps severitiesQ
    significance := assessSeverityTrendSignificance direction slope severities }

/-- The `symptom_groups` dict of `_analyze_severity_trends`: severity-bearing entries
(`is not None`, so severity 0 is kept) grouped by lower-cased symptom, in insertion order. -/
def severityGroups (tl : List SymptomTimelineEntry) : List (String × List SymptomTimelineEntry) :=
  tl.foldl (fun acc e =>
    match e.severity with
    | none => acc
    | some _ => insertGroup (pyLower e.symptom) e acc) []

/-- `_analyze_severity_trends`. -/
def analyzeSeverityTrends (sqrtA : ℚ → ℚ) (tl : List SymptomTimelineEntry) :
    List SeverityTrend :=
  (severityGroups tl).flatMap fun g =>
    if g.2.length ≥ 3 then [mkSeverityTrend sqrtA g.1 g.2] else []

/-- One dict of the `patterns` list of `_detect_cyclical_patterns`. -/
structure CyclicalPattern where
  type_ : String
  symptom : String
  occurrence_count : Nat
  average_interval_hours : ℚ
  interval_variance : ℚ
  pattern_consistency : String
  clinical_significance : String
  deriving Repr, DecidableEq

/-- `statistics.variance` (sample variance, denominator `n - 1`); callers guard `n > 1`. -/
def sampleVariance (xs : List ℚ) : ℚ :=
  let n : ℚ := xs.length
  let m := xs.sum / n
  (xs.map fun x => (x - m) ^ 2).sum / (n - 1)

/-- `_assess_cyclical_significance`. -/
def assessCyclicalSignificance (intervalHours : ℚ) (occurrences : Nat) : String :=
  if intervalHours < 24 ∧ occurrences ≥ 4 then
    "High significance - frequent recurring pattern may indicate acute condition"
  else if 24 ≤ intervalHours ∧ intervalHours ≤ 168 then
    "Moderate significance - regular pattern suggests systematic evaluation needed"
  else
    "Low-moderate significance - document pattern for healthcare provider"

/-- Consecutive inter-occurrence intervals in hours. -/
def intervalsOf (entries : List SymptomTimelineEntry) : List ℚ :=
  (entries.zip entries.tail).map fun p => p.2.timestamp - p.1.timestamp

/-- The `symptom_occurrences` dict of `_detect_cyclical_patterns` (all entries, grouped by
lower-cased symptom in insertion order). -/
def symptomOccurrences (tl : List SymptomTimelineEntry) :
    List (String × List SymptomTimelineEntry) :=
  tl.foldl (fun acc e => insertGroup (pyLower e.symptom) e acc) []

/-- `_detect_cyclical_patterns`. -/
def detectCyclicalPatterns (tl : List SymptomTimelineEntry) : List CyclicalPattern :=
  (symptomOccurrences tl).flatMap fun g =>
    if g.2.length ≥ 3 then
      let occurrences := sortByTimestamp g.2
      let intervals := intervalsOf occurrences
      if intervals.length ≥ 2 then
        let avgInterval := intervals.sum / intervals.length
        let intervalVariance := if intervals.length > 1 then sampleVariance intervals else 0
        if intervalVariance < avgInterval * (1/2) then
          [{ type_ := "cyclical"
             symptom := g.1
             occurrence_count := g.2.length
             average_interval_hours := avgInterval
             interval_variance := intervalVariance
             pattern_consistency :=
               if intervalVariance < avgInterval * (3/10) then "high" else "moderate"
             clinical_significance := assessCyclicalSignificance avgInterval g.2.length }]
        else []
      else []
    else []

/-- `SymptomCluster` dataclass of timeline_analysis_service.py. -/
structure SymptomCluster where
  symptoms : List String
  timeframe : ℚ × ℚ
  frequency : Nat
  clinical_significance : String
  deriving Repr, DecidableEq

/-- `_assess_cluster_significance`: counts of cluster symptoms matching the cardiovascular
and neurological keyword tables (substring test on the lower-cased symptom). -/
def assessClusterSignificance (symptoms : List String) : String :=
  let categoryCount := fun (cat : String) =>
    (symptoms.filter fun s =>
      ((symptomCategories.lookup cat).getD []).any fun kw => strContains (pyLower s) kw).length
  if categoryCount "cardiovascular" ≥ 2 then
    "High significance - cardiovascular symptom cluster requires prompt evaluation"
  else if categoryCount "neurological" ≥ 2 then
    "High significance - neurological symptom cluster requires prompt evaluation"
  else
    "Moderate significance - symptom cluster pattern noted"

/-- `_count_cluster_frequency`: for every start index, collect the distinct cluster symptoms
found in the `window_hours` forward window (the window scan includes the start index itself)
and count the window when at least 80% of the cluster's symptoms were found. -/
def countClusterFrequency (tl : List SymptomTimelineEntry) (clusterSymptoms : List String)
    (windowHours : ℚ) : Nat :=
  ((List.range tl.length).filter fun i =>
    let found := (((windowFrom tl i windowHours).filter
      fun e => e.symptom ∈ clusterSymptoms).map (·.symptom)).dedup
    decide ((found.length : ℚ) ≥ (clusterSymptoms.length : ℚ) * (4/5))).length

/-- The distinct raw symptom labels (case-sensitive, first-occurrence order) and the end
timestamp accumulated by the 4-hour scan of `_identify_symptom_clusters` starting at one
entry; `clusterEnd` only advances when a new symptom label is appended. -/
def clusterScan (start : SymptomTimelineEntry) (rest : List SymptomTimelineEntry) :
    List String × ℚ :=
  rest.foldl (fun acc e =>
    if e.symptom ∈ acc.1 then acc else (acc.1 ++ [e.symptom], e.timestamp))
    ([start.symptom], start.timestamp)

/-- The contribution of start index `i` to `_identify_symptom_clusters`. -/
def clusterAt (tl : List SymptomTimelineEntry) (i : Nat) : List SymptomCluster :=
  match windowFrom tl i 4 with
  | [] => []
  | e :: rest =>
      let scan := clusterScan e rest
      if scan.1.length ≥ 2 then
        let freq := countClusterFrequency tl scan.1 4
        if freq ≥ 2 then
          [{ symptoms := scan.1
             timeframe := (e.timestamp, scan.2)
             frequency := freq
             clinical_significance := assessClusterSignificance scan.1 }]
        else []
      else []

/-- `_identify_symptom_clusters`. -/
def identifySymptomClusters (tl : List SymptomTimelineEntry) : List SymptomCluster :=
  (List.range tl.length).flatMap (clusterAt tl)

/-- One dict of the `associations` list of `_find_temporal_associations`. -/
structure TemporalAssociation where
  type_ : String
  symptom_pair : String
  occurrence_count : Nat
  average_delay_hours : ℚ
  timing_consistency : ℚ
  clinical_relevance : String
  deriving Repr, DecidableEq

/-- `consistency = 1 - (statistics.stdev(time_diffs) / avg_delay) if avg_delay > 0 else 0`;
`statistics.stdev` is the float square root (the abstract `sqrtA`) of the sample variance. -/
def timingConsistency (sqrtA : ℚ → ℚ) (delays : List ℚ) : ℚ :=
  let avgDelay := delays.sum / delays.length
  if avgDelay > 0 then 1 - sqrtA (sampleVariance delays) / avgDelay else 0

/-- `_assess_association_relevance`. -/
def assessAssociationRelevance (delayHours : ℚ) : String :=
  if delayHours < 1 then "High relevance - immediate symptom progression"
  else if delayHours < 6 then "Moderate relevance - short-term symptom development"
  else "Low-moderate relevance - document pattern"

/-- The `symptom_pairs` dict of `_find_temporal_associations`: for every start index, the
forward delays (≤ 24 hours, scan breaks at the first later entry) to entries with a
different lower-cased symptom, keyed by the "a -> b" pair string in insertion order. -/
def symptomPairs (tl : List SymptomTimelineEntry) : List (String × List ℚ) :=
  ((List.range tl.length).flatMap fun i =>
    match windowFrom tl i 24 with
    | [] => []
    | e :: rest =>
        rest.filterMap fun f =>
          if pyLower e.symptom ≠ pyLower f.symptom then
            some (pyLower e.symptom ++ " -> " ++ pyLower f.symptom, f.timestamp - e.timestamp)
          else none).foldl (fun acc p => insertGroup p.1 p.2 acc) []

/-- `_find_temporal_associations`. -/
def findTemporalAssociations (sqrtA : ℚ → ℚ) (tl : List SymptomTimelineEntry) :
    List TemporalAssociation :=
  (symptomPairs tl).flatMap fun g =>
    if g.2.length ≥ 2 then
      let avgDelay := g.2.sum / g.2.length
      let consistency := timingConsistency sqrtA g.2
      if consistency > 3/10 then
        [{ type_ := "temporal_association"
           symptom_pair := g.1
           occurrence_count := g.2.length
           average_delay_hours := avgDelay
           timing_consistency := consistency
           clinical_relevance := assessAssociationRelevance avgDelay }]
      else []
    else []

/-- The risk-assessment dict returned by `_calculate_comprehensive_risk`. -/
structure RiskAssessment where
  risk_level : String
  risk_score : Nat
  risk_factors : List String
  immediate_attention_required : Bool
  emergency_evaluation_recommended : Bool
  deriving Repr, DecidableEq

/-- Score contribution of one emergency pattern (`+40` critical, `+25` high). -/
def emergencyContribution (p : EmergencyIndicator) : Nat :=
  if p.urgency = "critical" then 40 else if p.urgency = "high" then 25 else 0

/-- Risk-factor string appended for one emergency pattern. -/
def emergencyFactor (p : EmergencyIndicator) : Option String :=
  if p.urgency = "critical" then some "Critical emergency patterns detected"
  else if p.urgency = "high" then some "High-urgency patterns detected"
  else none

/-- Score contribution of one rapid-onset pattern (`+20` high urgency, else `+10`). -/
def rapidOnsetContribution (p : RapidOnsetPattern) : Nat :=
  if p.urgency_level = "high" then 20 else 10

/-- Risk-factor string appended for one rapid-onset pattern. -/
def rapidOnsetFactor (p : RapidOnsetPattern) : String :=
  if p.urgency_level = "high" then "Rapid onset of multiple symptoms"
  else "Moderate rapid onset pattern"

/-- The `worsening_trends` count (`trend_direction == "increasing"`). -/
def worseningCount (trends : List SeverityTrend) : Nat :=
  (trends.filter fun t => t.trend_direction = "increasing").length

/-- `timeline[-5:]` — the up-to-last-`n` entries of a list. -/
def lastN {α : Type} (n : Nat) (l : List α) : List α := l.drop (l.length - n)

/-- The recent-severity rule of `_calculate_comprehensive_risk`: over the last five entries
that carry a severity (`is not None`), `+15` if the maximum is ≥ 8, else `+8` if ≥ 6. -/
def recentSeverityScore (tl : List SymptomTimelineEntry) : Nat :=
  match ((lastN 5 tl).filterMap (·.severity)).max? with
  | none => 0
  | some m => if m ≥ 8 then 15 else if m ≥ 6 then 8 else 0

/-- Risk factors appended by the recent-severity rule. -/
def recentSeverityFactors (tl : List SymptomTimelineEntry) : List String :=
  match ((lastN 5 tl).filterMap (·.severity)).max? with
  | none => []
  | some m =>
      if m ≥ 8 then ["Recent severe symptoms (8+/10)"]
      else if m ≥ 6 then ["Recent moderate-severe symptoms (6-7/10)"]
      else []

/-- The raw (uncapped) risk score accumulated by `_calculate_comprehensive_risk`. -/
def rawRiskScore (tl : List SymptomTimelineEntry) (rop : List RapidOnsetPattern)
    (trends : List SeverityTrend) (ind : List EmergencyIndicator) : Nat :=
  (ind.map emergencyContribution).sum + (rop.map rapidOnsetContribution).sum +
    worseningCount trends * 5 + recentSeverityScore tl

/-- `_calculate_comprehensive_risk`.  The level thresholds and the two boolean flags are
computed from the raw score; the reported score is capped at 100. -/
def calculateComprehensiveRisk (tl : List SymptomTimelineEntry) (rop : List RapidOnsetPattern)
    (trends : List SeverityTrend) (ind : List EmergencyIndicator) : RiskAssessment :=
  let score := rawRiskScore tl rop trends ind
  { risk_level :=
      if score ≥ 50 then "critical"
      else if score ≥ 30 then "high"
      else if score ≥ 15 then "moderate"
      else "low"
    risk_score := min 100 score
    risk_factors :=
      ind.filterMap emergencyFactor ++ rop.map rapidOnsetFactor ++
        (if worseningCount trends > 0 then
          [toString (worseningCount trends) ++ " worsening symptom trends"] else []) ++
        recentSeverityFactors tl
    immediate_attention_required := decide (score ≥ 30)
    emergency_evaluation_recommended := decide (score ≥ 50) }

/-- One recommendation dict of `_generate_timeline_recommendations`. -/
structure ClinicalRecommendation where
  category : String
  action : String
  priority : String
  timeline : String
  reasoning : String
  deriving Repr, DecidableEq

/-- The always-appended documentation recommendation of
`_generate_timeline_recommendations`. -/
def documentationRec : ClinicalRecommendation :=
  { category := "documentation"
    action := "Continue detailed symptom tracking with timestamps"
    priority := "medium"
    timeline := "Ongoing"
    reasoning := "Timeline data provides valuable clinical information" }

/-- `_generate_timeline_recommendations`: the four conditional rules in their fixed order,
then the unconditional documentation entry. -/
def generateTimelineRecommendations (rop : List RapidOnsetPattern)
    (trends : List SeverityTrend) (cyc : List CyclicalPattern)
    (ind : List EmergencyIndicator) (risk : RiskAssessment) : List ClinicalRecommendation :=
  (if ind ≠ [] then
    [{ category := "emergency"
       action := "Seek immediate emergency medical attention"
       priority := "critical"
       timeline := "Immediately"
       reasoning := "Emergency patterns detected in symptom timeline" }] else []) ++
  (if rop ≠ [] ∧ ind = [] then
    [{ category := "urgent"
       action := "Urgent medical evaluation recommended"
       priority := "high"
       timeline := "Within 2-4 hours"
       reasoning := "Rapid onset of multiple symptoms requires prompt assessment" }] else []) ++
  (if worseningCount trends > 0 ∧ (risk.risk_level = "moderate" ∨ risk.risk_level = "high") then
    [{ category := "monitoring"
       action := "Close monitoring and medical follow-up for worsening symptoms"
       priority := "high"
       timeline := "Within 24 hours"
       reasoning := "Worsening trends detected in " ++ toString (worseningCount trends)
         ++ " symptoms" }] else []) ++
  (if cyc ≠ [] then
    [{ category := "follow_up"
       action := "Discuss recurring symptom patterns with healthcare provider"
       priority := "medium"
       timeline := "At next appointment"
       reasoning := "Cyclical patterns may indicate underlying condition requiring management" }]
    else []) ++
  [documentationRec]

/-- `TimelinePattern` dataclass of specialized_medical_service.py. -/
structure TimelinePattern where
  pattern_type : String
  description : String
  significance : String
  start_time : ℚ
  end_time : Option ℚ := none
  severity_trend : Option String := none
  confidence : ℚ := 0
  deriving Repr, DecidableEq

/-- Bump a key's counter in an association list with dict insertion-order semantics
(the `symptom_counts` dict of `_analyze_timeline_patterns`, keyed by raw symptom). -/
def insertCount (k : String) : List (String × Nat) → List (String × Nat)
  | [] => [(k, 1)]
  | (k', n) :: rest =>
      if k' = k then (k', n + 1) :: rest else (k', n) :: insertCount k rest

/-- `_analyze_timeline_patterns` of specialized_medical_service.py (the rule-based pattern
list merged into the narrative payload). -/
def analyzeTimelinePatterns (tl : List SymptomTimelineEntry) : List TimelinePattern :=
  if tl.length < 2 then []
  else
    let adjacentFast := (tl.zip tl.tail).filter fun p =>
      decide (p.2.timestamp - p.1.timestamp ≤ 1)
    let rapid : List TimelinePattern :=
      match adjacentFast with
      | [] => []
      | p :: ps =>
          [{ pattern_type := "rapid_onset"
             description := "Multiple symptoms appeared within 1 hour"
             significance := "May indicate acute medical condition requiring urgent evaluation"
             start_time := p.1.timestamp
             end_time := some ((p :: ps).getLast (List.cons_ne_nil p ps)).2.timestamp
             confidence := 4/5 }]
    let severityTimeline : List (ℚ × Int) :=
      tl.filterMap fun e => e.severity.map fun s => (e.timestamp, s)
    let worsening : List TimelinePattern :=
      if severityTimeline.length ≥ 3 then
        let increasingCount := ((severityTimeline.zip severityTimeline.tail).filter
          fun p => decide (p.2.2 > p.1.2)).length
        if (increasingCount : ℚ) ≥ (severityTimeline.length : ℚ) * (7/10) then
          [{ pattern_type := "progressive_worsening"
             description := "Symptoms progressively worsening over time"
             significance := "Indicates condition may be deteriorating, requires medical attention"
             start_time := (severityTimeline.headD (0, 0)).1
             end_time := some ((severityTimeline.getLastD (0, 0)).1)
             severity_trend := some "worsening"
             confidence := 9/10 }]
        else []
      else []
    let symptomCounts := tl.foldl (fun acc e => insertCount e.symptom acc) []
    let recurring := (symptomCounts.filter fun p => p.2 ≥ 3).map (·.1)
    let cyclical : List TimelinePattern :=
      if recurring ≠ [] then
        [{ pattern_type := "cyclical_pattern"
           description := "Recurring symptoms: " ++ String.intercalate ", " recurring
           significance := "May indicate chronic condition with flare-ups"
           start_time := (tl.headD default).timestamp
           end_time := some (tl.getLastD default).timestamp
           confidence := 7/10 }]
      else []
    rapid ++ worsening ++ cyclical

/-- `_analyze_symptom_progression` returns either the one-key insufficient/no-data dict or
the full five-key dict. -/
inductive ProgressionAnalysis where
  | tagOnly (progression : String)
  | full (progression : String) (severity_range : Option (Int × Int))
      (symptom_count_trend : Int) (average_interval_hours : ℚ) (total_duration_hours : ℚ)
  deriving Repr, DecidableEq

/-- `_analyze_symptom_progression` of specialized_medical_service.py. -/
def analyzeSymptomProgression (tl : List SymptomTimelineEntry) : ProgressionAnalysis :=
  if tl.length < 2 then .tagOnly "insufficient_data"
  else
    let severities := tl.filterMap (·.severity)
    let trend :=
      if severities.length ≥ 2 then
        let first := severities.headD 0
        let last := severities.getLastD 0
        if last > first then "worsening" else if last < first then "improving" else "stable"
      else "unknown"
    let intervals := (tl.zip tl.tail).map fun p => p.2.timestamp - p.1.timestamp
    let avgInterval := if intervals ≠ [] then intervals.sum / intervals.length else 0
    .full trend
      (if severities ≠ [] then
        some ((severities.min?).getD 0, (severities.max?).getD 0) else none)
      (let symptomSets := tl.map fun e => [e.symptom]  -- `set([entry.symptom])`, singletons
       if symptomSets.length ≥ 2 then
         ((symptomSets.getLastD []).length : Int) - ((symptomSets.headD []).length : Int)
       else 0)
      avgInterval
      ((tl.getLastD default).timestamp - (tl.headD default).timestamp)

/-- `_calculate_risk_trajectory` returns either the two-key no-data dict or the full dict. -/
inductive RiskTrajectory where
  | headline (risk_trend : String) (current_risk : String)
  | full (current_risk : String) (risk_trend : String) (rapid_changes_count : Nat)
      (average_recent_severity : ℚ)
  deriving Repr, DecidableEq

/-- `_calculate_risk_trajectory` of specialized_medical_service.py (severity truthiness:
entries with severity `None` or `0` are excluded from the recent average). -/
def calculateRiskTrajectory (tl : List SymptomTimelineEntry) : RiskTrajectory :=
  if tl.isEmpty then .headline "unknown" "moderate"
  else
    let recent := if tl.length ≥ 3 then lastN 3 tl else tl
    let truthy := recent.filter fun e => sevTruthy e.severity
    let avgRecentSeverity : ℚ :=
      if truthy ≠ [] then
        ((truthy.filterMap (·.severity)).map (Int.cast : Int → ℚ)).sum / truthy.length
      else 5
    let rapidChanges := ((tl.zip tl.tail).filter fun p =>
      decide (p.2.timestamp - p.1.timestamp < 1)).length
    let riskLevel :=
      if avgRecentSeverity ≥ 8 ∨ rapidChanges ≥ 3 then "high"
      else if avgRecentSeverity ≥ 6 ∨ rapidChanges ≥ 2 then "moderate"
      else "low"
    .full riskLevel (if rapidChanges ≥ 2 then "increasing" else "stable")
      rapidChanges avgRecentSeverity

/-- One recommendation dict of the narrative payload (`action`/`timing`/`reasoning`). -/
structure NarrativeRecommendation where
  action : String
  timing : String
  reasoning : String
  deriving Repr, DecidableEq

/-- The payload the repository parses out of a successful LLM response
(`_parse_timeline_response`); only the keys the service reads are modelled, missing keys
as `none`. -/
structure AiParsed where
  summary : Option String := none
  recommendations : Option (List NarrativeRecommendation) := none
  deriving Repr, DecidableEq

/-- The `ai_insights` field of the narrative payload: the parsed LLM dict on success, the
dict of `"error": e` with `"fallback": True` on collaborator failure, or the message-only
dict of the empty-timeline branch. -/
inductive AiInsights where
  | parsed (p : AiParsed)
  | fallbackNote (error : String)
  | message (msg : String)
  deriving Repr, DecidableEq

/-- The dict returned by `symptom_timeline_analysis` of specialized_medical_service.py. -/
structure AiTimelineResult where
  timeline_summary : String
  identified_patterns : List TimelinePattern
  ai_insights : AiInsights
  progression_analysis : ProgressionAnalysis
  risk_trajectory : RiskTrajectory
  recommendations : List NarrativeRecommendation
  deriving Repr, DecidableEq

/-- `_create_fallback_timeline_analysis`. -/
def createFallbackTimelineAnalysis (error : String) (tl : List SymptomTimelineEntry)
    (patterns : List TimelinePattern) : AiTimelineResult :=
  { timeline_summary := "Timeline analysis partially completed. " ++ toString tl.length
      ++ " entries analyzed."
    identified_patterns := patterns
    ai_insights := .fallbackNote error
    progression_analysis := analyzeSymptomProgression tl
    risk_trajectory := calculateRiskTrajectory tl
    recommendations :=
      [{ action := "Review timeline with healthcare provider"
         timing := "At next appointment"
         reasoning := "Professional review needed for timeline interpretation" }] }

/-- `_create_empty_timeline_analysis`. -/
def createEmptyTimelineAnalysis : AiTimelineResult :=
  { timeline_summary := "No timeline data available for analysis"
    identified_patterns := []
    ai_insights := .message "Insufficient timeline data"
    progression_analysis := .tagOnly "no_data"
    risk_trajectory := .headline "unknown" "moderate"
    recommendations :=
      [{ action := "Begin symptom tracking for future analysis"
         timing := "Ongoing"
         reasoning := "Timeline tracking improves clinical assessment" }] }

/-- `symptom_timeline_analysis` of specialized_medical_service.py, with the external model
call's outcome passed in as `narrative`. -/
def symptomTimelineAnalysis (tl : List SymptomTimelineEntry)
    (narrative : Except String AiParsed) : AiTimelineResult :=
  if tl.isEmpty then createEmptyTimelineAnalysis
  else
    let sorted := sortByTimestamp tl
    let patterns := analyzeTimelinePatterns sorted
    match narrative with
    | .ok ai =>
        { timeline_summary := ai.summary.getD "Timeline analysis completed"
          identified_patterns := patterns
          ai_insights := .parsed ai
          progression_analysis := analyzeSymptomProgression sorted
          risk_trajectory := calculateRiskTrajectory sorted
          recommendations := ai.recommendations.getD [] }
    | .error e => createFallbackTimelineAnalysis e sorted patterns

/-- The `date_range` sub-dict of the timeline metadata. -/
structure DateRange where
  start : ℚ
  end_ : ℚ
  duration_hours : ℚ
  deriving Repr, DecidableEq

/-- The `timeline_metadata` dict of the comprehensive report. -/
structure TimelineMetadata where
  total_entries : Nat
  date_range : Option DateRange
  unique_symptoms : Nat
  deriving Repr, DecidableEq

/-- The `pattern_analysis` dict of the comprehensive report. -/
structure PatternAnalysis where
  rapid_onset : List RapidOnsetPattern
  severity_trends : List SeverityTrend
  cyclical_patterns : List CyclicalPattern
  symptom_clusters : List SymptomCluster
  temporal_associations : List TemporalAssociation
  emergency_indicators : List EmergencyIndicator
  deriving Repr, DecidableEq

/-- The `ai_analysis` field: the message-only dict of `_create_empty_analysis` or the
narrative payload of `symptom_timeline_analysis`. -/
inductive AiAnalysisField where
  | noData (message : String)
  | result (r : AiTimelineResult)
  deriving Repr, DecidableEq

/-- The dict returned by `analyze_comprehensive_timeline`. -/
structure ComprehensiveTimelineReport where
  timeline_metadata : TimelineMetadata
  pattern_analysis : PatternAnalysis
  ai_analysis : AiAnalysisField
  risk_assessment : RiskAssessment
  clinical_recommendations : List ClinicalRecommendation
  analysis_timestamp : ℚ
  deriving Repr, DecidableEq

/-- `_create_empty_analysis` (the `datetime.utcnow()` timestamp is the `now` argument). -/
def createEmptyAnalysis (now : ℚ) : ComprehensiveTimelineReport :=
  { timeline_metadata := { total_entries := 0, date_range := none, unique_symptoms := 0 }
    pattern_analysis :=
      { rapid_onset := [], severity_trends := [], cyclical_patterns := []
        symptom_clusters := [], temporal_associations := [], emergency_indicators := [] }
    ai_analysis := .noData "No timeline data available"
    risk_assessment :=
      { risk_level := "unknown", risk_score := 0, risk_factors := []
        immediate_attention_required := false, emergency_evaluation_recommended := false }
    clinical_recommendations :=
      [{ category := "documentation"
         action := "Begin symptom timeline tracking"
         priority := "low"
         timeline := "Ongoing"
         reasoning := "Timeline data improves clinical assessment" }]
    analysis_timestamp := now }

/-- `analyze_comprehensive_timeline` of timeline_analysis_service.py: empty input short-
circuits to the empty analysis; otherwise the timeline is sorted, every detector runs on
the sorted snapshot, the narrative collaborator's outcome is merged, and the aggregator
and recommendation generator produce the rest of the report. -/
def analyzeComprehensiveTimeline (sqrtA : ℚ → ℚ) (timeline : List SymptomTimelineEntry)
    (narrative : Except String AiParsed) (now : ℚ) : ComprehensiveTimelineReport :=
  if timeline.isEmpty then createEmptyAnalysis now
  else
    let sorted := sortByTimestamp timeline
    let rapidOnsetPatterns := detectRapidOnset sorted
    let severityTrends := analyzeSeverityTrends sqrtA sorted
    let cyclicalPatterns := detectCyclicalPatterns sorted
    let symptomClusters := identifySymptomClusters sorted
    let temporalAssociations := findTemporalAssociations sqrtA sorted
    let emergencyIndicators := detectEmergencyPatterns sorted
    let aiAnalysis := symptomTimelineAnalysis sorted narrative
    let riskAssessment :=
      calculateComprehensiveRisk sorted rapidOnsetPatterns severityTrends emergencyIndicators
    let recommendations := generateTimelineRecommendations rapidOnsetPatterns severityTrends
      cyclicalPatterns emergencyIndicators riskAssessment
    { timeline_metadata :=
        { total_entries := sorted.length
          date_range := some
            { start := (sorted.headD default).timestamp
              end_ := (sorted.getLastD default).timestamp
              duration_hours :=
                (sorted.getLastD default).timestamp - (sorted.headD default).timestamp }
          unique_symptoms := ((sorted.map fun e => pyLower e.symptom).dedup).length }
      pattern_analysis :=
        { rapid_onset := rapidOnsetPatterns
          severity_trends := severityTrends
          cyclical_patterns := cyclicalPatterns
          symptom_clusters := symptomClusters
          temporal_associations := temporalAssociations
          emergency_indicators := emergencyIndicators }
      ai_analysis := .result aiAnalysis
      risk_assessment := riskAssessment
      clinical_recommendations := recommendations
      analysis_timestamp := now }

/-- Modelled from the spec: the risk-level threshold table (score ≥ 50 critical, ≥ 30 high,
≥ 15 moderate, else low), as a pure function of the reported score; compared below with the
level the code computes. -/
def specRiskLevel (score : Nat) : String :=
  if score ≥ 50 then "critical"
  else if score ≥ 30 then "high"
  else if score ≥ 15 then "moderate"
  else "low"

/-- Modelled from the spec: the candidate window as the spec describes it — the entry at
`i` together with every later entry within `w` hours (no scan cut-off); compared below with
the `break`-based scan the code performs. -/
def windowAllWithin (tl : List SymptomTimelineEntry) (i : Nat) (w : ℚ) :
    List SymptomTimelineEntry :=
  match tl.drop i with
  | [] => []
  | e :: rest => e :: rest.filter fun f => decide (f.timestamp - e.timestamp ≤ w)

/-- The number of distinct symptom labels in a group (the quantity the spec's rapid-onset
sentence counts). -/
def distinctSymptomCount (group : List SymptomTimelineEntry) : Nat :=
  ((group.map (·.symptom)).dedup).length

/-- Lower-case an entry's symptom label (the input transformation of the case-insensitivity
claim). -/
def lowerEntry (e : SymptomTimelineEntry) : SymptomTimelineEntry :=
  { e with symptom := pyLower e.symptom }

/-- A report with its run timestamp scrubbed (for comparing two runs of the analyzer). -/
def stripTimestamp (r : ComprehensiveTimelineReport) : ComprehensiveTimelineReport :=
  { r with analysis_timestamp := 0 }

/-- Two far-apart emergency-keyword entries (scenario D of the spec). -/
def tlC3 : List SymptomTimelineEntry :=
  [⟨0, "chest pain", none, none, none, none, none⟩,
   ⟨50, "seizure", none, none, none, none, none⟩]

/-- Three occurrences of one identical symptom label inside a single 1-hour window. -/
def tlC4 : List SymptomTimelineEntry :=
  [⟨0, "headache", none, none, none, none, none⟩,
   ⟨1/2, "headache", none, none, none, none, none⟩,
   ⟨9/10, "headache", none, none, none, none, none⟩]

/-- A one-entry timeline (any nonempty input exercises the narrative fallback path). -/
def tlC5 : List SymptomTimelineEntry :=
  [⟨0, "cough", none, none, none, none, none⟩]

/-- Scenario A of the spec: t = 0, +15 min, +30 min with severities 6, 7, 8. -/
def tlC7 : List SymptomTimelineEntry :=
  [⟨0, "chest tightness", some 6, none, none, none, none⟩,
   ⟨1/4, "shortness of breath", some 7, none, none, none, none⟩,
   ⟨1/2, "left arm pain", some 8, none, none, none, none⟩]

/-- Case variants of one symptom label, arranged so that the raw-string cluster scan sees a
recurring two-symptom cluster while the lower-cased timeline sees only one label. -/
def tlC8 : List SymptomTimelineEntry :=
  [⟨0, "Nausea", none, none, none, none, none⟩,
   ⟨1, "nausea", none, none, none, none, none⟩,
   ⟨10, "Nausea", none, none, none, none, none⟩,
   ⟨11, "nausea", none, none, none, none, none⟩]

/-- Chronological order of a timeline (what `sorted(timeline, key=timestamp)` guarantees). -/
def timeSorted (tl : List SymptomTimelineEntry) : Prop :=
  List.Pairwise (fun a b => a.timestamp ≤ b.timestamp) tl

instance (tl : List SymptomTimelineEntry) : Decidable (timeSorted tl) :=
  inferInstanceAs (Decidable (List.Pairwise _ tl))

attribute [local semireducible] Rat.add Rat.sub Rat.mul Rat.inv

lemma char_toLower_idem (c : Char) : c.toLower.toLower = c.toLower := by
  simp only [Char.toLower]
  split
  · next h =>
    have hval : (c.toNat + 32).isValidChar := by
      left
      omega
    have hv : (Char.ofNat (c.toNat + 32)).toNat = c.toNat + 32 := by
      unfold Char.ofNat
      rw [dif_pos hval]
      simp [Char.toNat, Char.ofNatAux, UInt32.toNat, BitVec.toNat_ofNatLt]
    rw [if_neg]
    rw [hv]
    omega
  · rfl

lemma pyLower_idem (s : String) : pyLower (pyLower s) = pyLower s := by
  simp only [pyLower, List.map_map]
  have h : Char.toLower ∘ Char.toLower = Char.toLower := funext char_toLower_idem
  rw [h]

lemma entryMatchesEmergency_lowerEntry (e : SymptomTimelineEntry) :
    entryMatchesEmergency (lowerEntry e) = entryMatchesEmergency e := by
  simp [entryMatchesEmergency, lowerEntry, pyLower_idem]

/-- On a list whose relation `R` holds pairwise, a predicate that propagates backwards
along `R` is scanned identically by `takeWhile` and `filter`. -/
lemma takeWhile_eq_filter_of_pairwise {α : Type} {R : α → α → Prop} {p : α → Bool}
    (hp : ∀ a b, R a b → p b = true → p a = true) :
    ∀ l : List α, List.Pairwise R l → l.takeWhile p = l.filter p
  | [], _ => rfl
  | a :: l, h => by
    rcases List.pairwise_cons.mp h with ⟨ha, hl⟩
    by_cases hpa : p a = true
    · rw [List.takeWhile_cons, List.filter_cons, if_pos hpa, if_pos hpa,
        takeWhile_eq_filter_of_pairwise hp l hl]
    · have hnil : l.filter p = [] := by
        rw [List.filter_eq_nil_iff]
        intro b hb hpb
        exact hpa (hp a b (ha b hb) hpb)
      rw [List.takeWhile_cons, List.filter_cons, if_neg hpa, if_neg hpa, hnil]

lemma sortByTimestamp_sorted (tl : List SymptomTimelineEntry) :
    timeSorted (sortByTimestamp tl) := by
  have h := @List.sorted_mergeSort SymptomTimelineEntry
    (fun a b : SymptomTimelineEntry => decide (a.timestamp ≤ b.timestamp))
    (fun a b c hab hbc => by
      simp only [decide_eq_true_eq] at *
      exact le_trans hab hbc)
    (fun a b => by
      by_cases hab : a.timestamp ≤ b.timestamp
      · simp [hab]
      · simp [le_of_not_le hab])
    tl
  simpa [timeSorted, sortByTimestamp] using h

lemma sortByTimestamp_idem (tl : List SymptomTimelineEntry) :
    sortByTimestamp (sortByTimestamp tl) = sortByTimestamp tl := by
  have h := sortByTimestamp_sorted tl
  simp only [timeSorted] at h
  unfold sortByTimestamp
  apply List.mergeSort_of_sorted
  simpa using h

/-- C1: for every input, the risk assessment's reported score lies in [0, 100], its level
is the pure threshold function of the reported score (≥50 critical, ≥30 high, ≥15 moderate,
else low), and the two flags hold exactly when the reported score reaches 30 resp. 50. -/
theorem risk_score_bounded_level_and_flags (tl : List SymptomTimelineEntry)
    (rop : List RapidOnsetPattern) (trends : List SeverityTrend)
    (ind : List EmergencyIndicator) :
    (calculateComprehensiveRisk tl rop trends ind).risk_score ≤ 100
    ∧ (calculateComprehensiveRisk tl rop trends ind).risk_level
        = specRiskLevel (calculateComprehensiveRisk tl rop trends ind).risk_score
    ∧ (calculateComprehensiveRisk tl rop trends ind).immediate_attention_required
        = decide ((calculateComprehensiveRisk tl rop trends ind).risk_score ≥ 30)
    ∧ (calculateComprehensiveRisk tl rop trends ind).emergency_evaluation_recommended
        = decide ((calculateComprehensiveRisk tl rop trends ind).risk_score ≥ 50) := by
  simp only [calculateComprehensiveRisk, specRiskLevel]
  refine ⟨Nat.min_le_left 100 _, ?_, ?_, ?_⟩
  · split_ifs <;> first | rfl | (exfalso; omega)
  · rw [decide_eq_decide]
    omega
  · rw [decide_eq_decide]
    omega

/-- C2: the empty timeline short-circuits to the fixed empty report — no failure, zero
entries, empty pattern lists, risk level "unknown" with score 0, and exactly one
recommendation, of category "documentation". -/
theorem empty_timeline_gives_empty_report (sqrtA : ℚ → ℚ) (narrative : Except String AiParsed)
    (now : ℚ) :
    analyzeComprehensiveTimeline sqrtA [] narrative now = createEmptyAnalysis now
    ∧ (createEmptyAnalysis now).timeline_metadata.total_entries = 0
    ∧ (createEmptyAnalysis now).pattern_analysis = ⟨[], [], [], [], [], []⟩
    ∧ (createEmptyAnalysis now).risk_assessment.risk_level = "unknown"
    ∧ (createEmptyAnalysis now).risk_assessment.risk_score = 0
    ∧ ((createEmptyAnalysis now).clinical_recommendations.map (·.category))
        = ["documentation"] :=
  ⟨rfl, rfl, rfl, rfl, rfl, rfl⟩

/-- C7: on the scenario-A timeline (t = 0, +15 min, +30 min; "chest tightness" 6,
"shortness of breath" 7, "left arm pain" 8) exactly one rapid-onset pattern is detected,
its urgency is "high" with "shortness of breath" as the flagged emergency symptom, and the
rapid-onset rule of the aggregator contributes exactly 20 for it. -/
theorem scenario_a_rapid_onset_high_urgency :
    (detectRapidOnset tlC7).map (fun p => (p.urgency_level, p.emergency_symptoms))
      = [("high", ["shortness of breath"])]
    ∧ ((detectRapidOnset tlC7).map rapidOnsetContribution).sum = 20 := by
  decide

/-- C9: the three degenerate denominators resolve to the sentinel 0 instead of a division
fault: a zero least-squares denominator gives slope 0, a zero variance on either coordinate
gives correlation 0, and a zero mean delay gives timing consistency 0. -/
theorem degenerate_denominators_give_sentinels (sqrtA : ℚ → ℚ) (xs ys delays : List ℚ) :
    (lsDenom xs = 0 → lsSlope xs ys = 0)
    ∧ (lsDenom xs = 0 ∨ lsDenom ys = 0 → correlationOr0 sqrtA xs ys = 0)
    ∧ (delays.sum / delays.length = 0 → timingConsistency sqrtA delays = 0) := by
  refine ⟨?_, ?_, ?_⟩
  · intro h
    simp [lsSlope, h]
  · intro h
    rcases h with h | h <;> simp [correlationOr0, corrDegenerate, h]
  · intro h
    simp [timingConsistency, h]

theorem degenerate_denominators_witness :
    lsSlope [0, 0, 0] [5, 6, 7] = 0
    ∧ correlationOr0 (fun q => q) [0, 0, 0] [5, 6, 7] = 0
    ∧ timingConsistency (fun q => q) [0, 0] = 0 :=
  ⟨(degenerate_denominators_give_sentinels (fun q => q) [0, 0, 0] [5, 6, 7] [0, 0]).1
      (by decide),
   (degenerate_denominators_give_sentinels (fun q => q) [0, 0, 0] [5, 6, 7] [0, 0]).2.1
      (Or.inl (by decide)),
   (degenerate_denominators_give_sentinels (fun q => q) [0, 0, 0] [5, 6, 7] [0, 0]).2.2
      (by decide)⟩

/-- C10: every report's recommendation list is non-empty and ends with a "documentation"
entry, whose priority is "low" for the empty-timeline report and "medium" for every
non-empty analysis. -/
theorem recommendations_end_with_documentation (sqrtA : ℚ → ℚ)
    (tl : List SymptomTimelineEntry) (narrative : Except String AiParsed) (now : ℚ) :
    (analyzeComprehensiveTimeline sqrtA tl narrative now).clinical_recommendations ≠ []
    ∧ ((analyzeComprehensiveTimeline sqrtA tl narrative now).clinical_recommendations.getLast?).map
        (fun r => (r.category, r.priority))
      = some ("documentation", if tl.isEmpty then "low" else "medium") := by
  by_cases h : tl.isEmpty
  · constructor <;> simp [analyzeComprehensiveTimeline, h, createEmptyAnalysis]
  · constructor
    · simp only [analyzeComprehensiveTimeline, h, Bool.false_eq_true, if_false,
        generateTimelineRecommendations]
      simp
    · simp only [analyzeComprehensiveTimeline, h, Bool.false_eq_true, if_false,
        generateTimelineRecommendations]
      rw [List.getLast?_concat]
      simp [documentationRec]

/-- C6 counterexample: two runs of the analyzer on the same (empty) input at different
wall-clock times give different byte-level reports, because the report embeds the run
timestamp. -/
theorem analyzer_rerun_differs :
    analyzeComprehensiveTimeline (fun q => q) [] (Except.error "") 0
      ≠ analyzeComprehensiveTimeline (fun q => q) [] (Except.error "") 1 := by
  decide

/-- C6 (amended): with the run timestamp scrubbed, two runs of the analyzer on the same
immutable input and the same collaborator outcome give identical reports — the
`analysis_timestamp` field, which records `datetime.utcnow()`, is the only run-dependent
part. -/
theorem analyzer_deterministic_up_to_timestamp (sqrtA : ℚ → ℚ)
    (tl : List SymptomTimelineEntry) (narrative : Except String AiParsed) (now now' : ℚ) :
    stripTimestamp (analyzeComprehensiveTimeline sqrtA tl narrative now)
      = stripTimestamp (analyzeComprehensiveTimeline sqrtA tl narrative now') := by
  by_cases h : tl.isEmpty <;>
    simp [analyzeComprehensiveTimeline, h, stripTimestamp, createEmptyAnalysis]

/-- C5: the collaborator outcome never influences the deterministic report parts (pattern
analysis, risk assessment, recommendations); on a failing narrative call over a non-empty
timeline the narrative field carries the fallback payload, whose `ai_insights` is the
`fallback: true` note holding the error message. -/
theorem narrative_failure_preserves_deterministic_report (sqrtA : ℚ → ℚ)
    (tl : List SymptomTimelineEntry) (nar nar' : Except String AiParsed)
    (now : ℚ) (msg : String) :
    (analyzeComprehensiveTimeline sqrtA tl nar now).pattern_analysis
      = (analyzeComprehensiveTimeline sqrtA tl nar' now).pattern_analysis
    ∧ (analyzeComprehensiveTimeline sqrtA tl nar now).risk_assessment
      = (analyzeComprehensiveTimeline sqrtA tl nar' now).risk_assessment
    ∧ (analyzeComprehensiveTimeline sqrtA tl nar now).clinical_recommendations
      = (analyzeComprehensiveTimeline sqrtA tl nar' now).clinical_recommendations
    ∧ (tl ≠ [] →
        (analyzeComprehensiveTimeline sqrtA tl (Except.error msg) now).ai_analysis
          = .result (createFallbackTimelineAnalysis msg (sortByTimestamp tl)
              (analyzeTimelinePatterns (sortByTimestamp tl))))
    ∧ (∀ tl2 ps, (createFallbackTimelineAnalysis msg tl2 ps).ai_insights
        = .fallbackNote msg) := by
  refine ⟨?_, ?_, ?_, ?_, fun tl2 ps => rfl⟩
  · by_cases h : tl.isEmpty <;> simp [analyzeComprehensiveTimeline, h]
  · by_cases h : tl.isEmpty <;> simp [analyzeComprehensiveTimeline, h]
  · by_cases h : tl.isEmpty <;> simp [analyzeComprehensiveTimeline, h]
  · intro hne
    have h : tl.isEmpty = false := by
      cases tl with
      | nil => exact absurd rfl hne
      | cons a l => rfl
    have hs : (sortByTimestamp tl).isEmpty = false := by
      cases hst : sortByTimestamp tl with
      | nil =>
          have := @List.length_mergeSort SymptomTimelineEntry
            (fun a b : SymptomTimelineEntry => decide (a.timestamp ≤ b.timestamp)) tl
          rw [sortByTimestamp] at hst
          rw [hst] at this
          cases tl with
          | nil => exact absurd rfl hne
          | cons a l => simp at this
      | cons a l => rfl
    simp only [analyzeComprehensiveTimeline, h, Bool.false_eq_true, if_false,
      symptomTimelineAnalysis, hs, sortByTimestamp_idem]

/-- C5 witness: the fallback payload at a concrete one-entry timeline and error message. -/
theorem narrative_failure_witness :
    (analyzeComprehensiveTimeline (fun q => q) tlC5
        (Except.error "model unavailable") 0).ai_analysis
      = .result (createFallbackTimelineAnalysis "model unavailable" (sortByTimestamp tlC5)
          (analyzeTimelinePatterns (sortByTimestamp tlC5))) :=
  (narrative_failure_preserves_deterministic_report (fun q => q) tlC5
      (Except.error "model unavailable") (Except.error "model unavailable") 0
      "model unavailable").2.2.2.1 (by decide)

/-- C3: whenever at least two timeline entries match the emergency keyword set, the
detector emits the keyword-cluster pattern with urgency "critical"; the aggregator scores
it +40; with no other rule firing the resulting level is at least "high"; and the first
generated recommendation is category "emergency" with priority "critical". -/
theorem emergency_cluster_scoring_and_recommendation
    (tl : List SymptomTimelineEntry) (trends : List SeverityTrend)
    (cyc : List CyclicalPattern)
    (h1 : 2 ≤ emergencyCount tl)
    (h2 : detectEmergencyPatterns tl = [emergencyClusterIndicator tl])
    (h3 : detectRapidOnset tl = [])
    (h4 : worseningCount trends = 0)
    (h5 : recentSeverityScore tl = 0) :
    emergencyClusterIndicator tl ∈ detectEmergencyPatterns tl
    ∧ (emergencyClusterIndicator tl).urgency = "critical"
    ∧ emergencyContribution (emergencyClusterIndicator tl) = 40
    ∧ ((calculateComprehensiveRisk tl (detectRapidOnset tl) trends
          (detectEmergencyPatterns tl)).risk_level = "high"
        ∨ (calculateComprehensiveRisk tl (detectRapidOnset tl) trends
          (detectEmergencyPatterns tl)).risk_level = "critical")
    ∧ ((generateTimelineRecommendations (detectRapidOnset tl) trends cyc
          (detectEmergencyPatterns tl)
          (calculateComprehensiveRisk tl (detectRapidOnset tl) trends
            (detectEmergencyPatterns tl))).head?).map (fun r => (r.category, r.priority))
      = some ("emergency", "critical") := by
  have hscore : rawRiskScore tl (detectRapidOnset tl) trends (detectEmergencyPatterns tl)
      = 40 := by
    rw [rawRiskScore, h2, h3, h4, h5]
    rfl
  refine ⟨?_, rfl, rfl, ?_, ?_⟩
  · rw [detectEmergencyPatterns, if_pos h1]
    exact List.mem_append_right _ (List.mem_singleton.mpr rfl)
  · left
    rw [calculateComprehensiveRisk]
    simp only [hscore]
    rfl
  · rw [generateTimelineRecommendations, if_pos (by rw [h2]; exact List.cons_ne_nil _ _)]
    rfl

/-- C3 witness: two far-apart keyword entries ("chest pain" at t = 0, "seizure" at
t = 50 h) with no other rule firing. -/
theorem emergency_cluster_scoring_witness :
    emergencyClusterIndicator tlC3 ∈ detectEmergencyPatterns tlC3
    ∧ (emergencyClusterIndicator tlC3).urgency = "critical"
    ∧ emergencyContribution (emergencyClusterIndicator tlC3) = 40
    ∧ ((calculateComprehensiveRisk tlC3 (detectRapidOnset tlC3) []
          (detectEmergencyPatterns tlC3)).risk_level = "high"
        ∨ (calculateComprehensiveRisk tlC3 (detectRapidOnset tlC3) []
          (detectEmergencyPatterns tlC3)).risk_level = "critical")
    ∧ ((generateTimelineRecommendations (detectRapidOnset tlC3) [] []
          (detectEmergencyPatterns tlC3)
          (calculateComprehensiveRisk tlC3 (detectRapidOnset tlC3) []
            (detectEmergencyPatterns tlC3))).head?).map (fun r => (r.category, r.priority))
      = some ("emergency", "critical") :=
  emergency_cluster_scoring_and_recommendation tlC3 [] [] (by decide) (by decide)
    (by decide) (by decide) (by decide)

/-- C4 counterexample: on a sorted timeline of three same-label entries within one hour the
detector emits a pattern although the window holds a single distinct symptom — emission is
not equivalent to "at least 3 distinct symptoms in the window". -/
theorem rapid_onset_distinctness_refuted :
    ¬ ∀ tl, timeSorted tl → ∀ i, i < tl.length →
        ((ropAt tl i ≠ []) ↔ 3 ≤ distinctSymptomCount (rapidOnsetGroup tl i)) := by
  intro h
  have h0 := (h tlC4 (by decide) 0 (by decide)).mp (by decide)
  have h1 : distinctSymptomCount (rapidOnsetGroup tlC4 0) = 1 := by decide
  omega

/-- C4 (amended): on a time-sorted timeline the candidate group of entry `i` is exactly
the entry together with every later entry within one hour, and a pattern is emitted from
it if and only if the group has at least 3 entries (entries, not distinct symptom
labels). -/
theorem rapid_onset_emits_iff_three_entries (tl : List SymptomTimelineEntry)
    (hs : timeSorted tl) (i : Nat) :
    ((ropAt tl i ≠ []) ↔ 3 ≤ (rapidOnsetGroup tl i).length)
    ∧ rapidOnsetGroup tl i = windowAllWithin tl i 1 := by
  constructor
  · rw [ropAt, rapidOnsetGroup]
    rcases hw : windowFrom tl i 1 with _ | ⟨e, rest⟩
    · simp
    · by_cases h3 : (e :: rest).length ≥ 3 <;> simp [h3]
  · rw [rapidOnsetGroup, windowFrom, windowAllWithin]
    rcases hd : tl.drop i with _ | ⟨e, rest⟩
    · rfl
    · have hp : List.Pairwise
          (fun a b : SymptomTimelineEntry => a.timestamp ≤ b.timestamp) (e :: rest) := by
        rw [← hd]
        exact List.Pairwise.sublist (List.drop_sublist i tl) hs
      have := takeWhile_eq_filter_of_pairwise
        (R := fun a b : SymptomTimelineEntry => a.timestamp ≤ b.timestamp)
        (p := fun f => decide (f.timestamp - e.timestamp ≤ 1))
        (fun a b hab hb => by
          simp only [decide_eq_true_eq] at *
          linarith)
        rest (List.pairwise_cons.mp hp).2
      show e :: List.takeWhile _ rest = e :: List.filter _ rest
      rw [this]

/-- C4 witness: the amended equivalence evaluated on the sorted three-entry timeline. -/
theorem rapid_onset_emits_iff_three_entries_witness :
    ((ropAt tlC4 0 ≠ []) ↔ 3 ≤ (rapidOnsetGroup tlC4 0).length)
    ∧ rapidOnsetGroup tlC4 0 = windowAllWithin tlC4 0 1 :=
  rapid_onset_emits_iff_three_entries tlC4 (by decide) 0

/-- C8 counterexample: lower-casing every symptom label changes the symptom-cluster
identifier's output — the raw-string timeline yields two recurring case-variant clusters
while its lower-cased image yields none, so the detectors are not all case-insensitive. -/
theorem cluster_identifier_case_sensitive :
    identifySymptomClusters (tlC8.map lowerEntry) ≠ identifySymptomClusters tlC8
    ∧ (identifySymptomClusters tlC8).length = 2
    ∧ identifySymptomClusters (tlC8.map lowerEntry) = [] := by
  refine ⟨by decide, by decide, by decide⟩

/-- C8 (amended): the emergency-keyword matching is case-insensitive (lower-casing every
entry leaves the match count unchanged, for every timeline), but the symptom-cluster
identifier's distinctness test and recurrence count compare raw symptom strings, so
lower-casing can change its detected clusters. -/
theorem emergency_matching_case_insensitive_clusters_not (tl : List SymptomTimelineEntry) :
    emergencyCount (tl.map lowerEntry) = emergencyCount tl
    ∧ identifySymptomClusters (tlC8.map lowerEntry) ≠ identifySymptomClusters tlC8 := by
  constructor
  · rw [emergencyCount, emergencyCount, List.filter_map, List.length_map]
    congr 1
    apply List.filter_congr
    intro e _
    simpa using entryMatchesEmergency_lowerEntry e
  · decide
